import Mathlib

/-!
Shallow embedding of `scripts/generate_tiles.py` (wondor-actions).

The script is a linear pipeline: read configuration from the environment,
fetch rows from a remote view, build a GeoJSON feature collection, write it
to disk, compile tiles via a `tippecanoe` subprocess, upload the result, and
clean up the local files in a `finally` block.

Python values appearing in rows are modelled by `JValue`; Python truthiness
by `JValue.truthy`.  External effects (the network fetch, `json.loads`, the
file write, the subprocess exit code, the upload, `os.remove`) are modelled
as oracles packaged in a `World`; exceptions are modelled by `Except PyExc`.
-/

namespace GenerateTiles

/-- A JSON-like Python value, as held in a fetched row or a feature. -/
inductive JValue : Type where
  | jnull : JValue
  | jbool : Bool → JValue
  | jnum : Int → JValue
  | jstr : String → JValue
  | jarr : List JValue → JValue
  | jobj : List (String × JValue) → JValue
  deriving Repr, BEq

/-- Python truthiness of a `JValue`: `None`, `False`, `0`, `""`, `[]`, `{}`
are falsy, everything else is truthy. -/
def JValue.truthy : JValue → Bool
  | .jnull => false
  | .jbool b => b
  | .jnum n => n != 0
  | .jstr s => s != ""
  | .jarr xs => !xs.isEmpty
  | .jobj fs => !fs.isEmpty

/-- A fetched row: a Python dict from column name to value.  `dict.get(k)`
returns `None` for a missing key, so access goes through `Row.get`. -/
def Row : Type := List (String × JValue)

/-- `row.get(k)`: the value bound to `k`, or `None` (`jnull`) if absent. -/
def Row.get (row : Row) (k : String) : JValue :=
  (List.lookup k row).getD .jnull

/-- A GeoJSON feature, as the dict literal built at lines 80–89 of the
script: `{"type": "Feature", "id": i, "geometry": geom, "properties": {...}}`. -/
structure Feature : Type where
  type : String
  id : Nat
  geometry : JValue
  properties : List (String × JValue)
  deriving Repr

/-- A GeoJSON feature collection:
`{"type": "FeatureCollection", "features": features}`. -/
structure FeatureCollection : Type where
  type : String
  features : List Feature
  deriving Repr

/-- The geometry derived for one row (lines 71–78 of the script):
```
geom = None
if location_data := row.get("location"):
    try:
        geom = json.loads(location_data) if isinstance(location_data, str) else location_data
    except json.JSONDecodeError:
        ...warning...
        geom = None
```
`loads` models `json.loads`, returning `none` where the library raises
`json.JSONDecodeError`. -/
def rowGeom (loads : String → Option JValue) (row : Row) : JValue :=
  let location_data := row.get "location"
  if location_data.truthy then
    match location_data with
    | .jstr s =>
      match loads s with
      | some v => v
      | none => .jnull
    | _ => location_data
  else .jnull

/-- Whether the `json.JSONDecodeError` branch printed its warning for this
row: the walrus condition was truthy, the value was a string, and parsing
failed. -/
def rowWarned (loads : String → Option JValue) (row : Row) : Bool :=
  let location_data := row.get "location"
  location_data.truthy &&
    match location_data with
    | .jstr s => (loads s).isNone
    | _ => false

/-- The feature built for row `i` (lines 80–89). -/
def buildFeature (loads : String → Option JValue) (i : Nat) (row : Row) :
    Feature where
  type := "Feature"
  id := i
  geometry := rowGeom loads row
  properties :=
    [("url", row.get "url"), ("title", row.get "title"),
     ("marker", row.get "marker")]

/-- The pure row-to-collection transformation inside `fetch_data_as_geojson`
(lines 69–93): enumerate the fetched rows, build one feature per row, wrap
them in a FeatureCollection. -/
def fetch_data_as_geojson (loads : String → Option JValue)
    (rows : List Row) : FeatureCollection where
  type := "FeatureCollection"
  features := rows.enum.map fun p => buildFeature loads p.1 p.2

/-! ## Control flow: exceptions, oracles, `main`, and the module-level script -/

/-- A Python exception, as far as this script distinguishes them:
`FileNotFoundError` (caught by name in `cleanup_files`),
`subprocess.CalledProcessError` (raised by `subprocess.run(check=True)` on a
non-zero exit code), and every other `Exception`. -/
inductive PyExc : Type where
  | fileNotFound : PyExc
  | calledProcessError : Nat → PyExc
  | other : String → PyExc
  deriving Repr, BEq, DecidableEq

/-- The pipeline steps whose invocation `main` sequences; traces of `Step`s
record which ran and in which order. -/
inductive Step : Type where
  | fetch : Step
  | save : Step
  | generateTiles : Step
  | upload : Step
  | cleanup : Step
  deriving Repr, BEq, DecidableEq

/-- Oracles for every external effect of one run: the outcome of the network
fetch, `json.loads`, the GeoJSON file write, the tippecanoe exit code, the
storage upload, and `os.remove` per filename. -/
structure World : Type where
  fetchResult : Except PyExc (List Row)
  loads : String → Option JValue
  saveResult : Except PyExc Unit
  tippecanoeExitCode : Nat
  uploadResult : Except PyExc Unit
  osRemove : String → Except PyExc Unit

def OUTPUT_PMTILES_FILE : String := "articles.pmtiles"

def OUTPUT_GEOJSON_FILE : String := "articles.geojson"

/-- `generate_tiles` (lines 102–107): `subprocess.run(TIPPECANOE_OPTIONS,
check=True)` raises `CalledProcessError` exactly when the subprocess exits
non-zero. -/
def generate_tiles (w : World) : Except PyExc Unit :=
  if w.tippecanoeExitCode = 0 then .ok ()
  else .error (.calledProcessError w.tippecanoeExitCode)

/-- `upload_to_storage` (lines 109–124): runs the upload in a `try`; on
exception it prints an error and re-raises, so the outcome passes through. -/
def upload_to_storage (w : World) : Except PyExc Unit :=
  match w.uploadResult with
  | .ok _ => .ok ()
  | .error e => .error e

/-- A Python `try`/`except` statement: run the body; on an exception run the
handler (which may itself re-raise or swallow). -/
def pyTry (body : Except PyExc α) (handler : PyExc → Except PyExc α) :
    Except PyExc α :=
  match body with
  | .ok a => .ok a
  | .error e => handler e

/-- One iteration of the loop in `cleanup_files` (lines 129–136):
`os.remove(filename)` inside a `try` with a `FileNotFoundError` handler and
a catch-all `except Exception` handler; each branch prints one line.
Returns the printed line. -/
def cleanupIter (osRemove : String → Except PyExc Unit) (filename : String) :
    Except PyExc String :=
  pyTry (match osRemove filename with
      | .ok _ => .ok s!"Removed {filename}."
      | .error e => .error e)
    (fun e =>
      match e with
      | .fileNotFound => .ok s!"{filename} not found, skipping cleanup."
      | _ => .ok s!"Warning: Could not remove file {filename}.")

/-- `cleanup_files(*filenames)` (lines 126–136): the `for` loop over the
filenames, collecting the printed lines in order; an uncaught exception in
any iteration would abort the loop and propagate. -/
def cleanup_files (osRemove : String → Except PyExc Unit) :
    List String → Except PyExc (List String)
  | [] => .ok []
  | filename :: rest =>
    match cleanupIter osRemove filename with
    | .error e => .error e
    | .ok line =>
      match cleanup_files osRemove rest with
      | .error e => .error e
      | .ok lines => .ok (line :: lines)

/-- The `try` body of `main` (lines 140–156): fetch, early-return on an
empty feature list, save, generate tiles, upload.  Returns the trace of
steps entered and the body's outcome. -/
def mainBody (w : World) : List Step × Except PyExc Unit :=
  match w.fetchResult with
  | .error e => ([.fetch], .error e)
  | .ok rows =>
    let geojson_data := fetch_data_as_geojson w.loads rows
    -- `if not geojson_data or not geojson_data['features']`: the dict
    -- `geojson_data` has two keys, hence is always truthy, so the test
    -- reduces to emptiness of the feature list.
    if geojson_data.features.isEmpty then ([.fetch], .ok ())
    else
      match w.saveResult with
      | .error e => ([.fetch, .save], .error e)
      | .ok _ =>
        match generate_tiles w with
        | .error e => ([.fetch, .save, .generateTiles], .error e)
        | .ok _ =>
          match upload_to_storage w with
          | .error e => ([.fetch, .save, .generateTiles, .upload], .error e)
          | .ok _ => ([.fetch, .save, .generateTiles, .upload], .ok ())

/-- `main` (lines 138–159): the body inside `try`, then the `finally` block
running `cleanup_files(OUTPUT_GEOJSON_FILE, OUTPUT_PMTILES_FILE)`.  Per
Python semantics an exception raised in the `finally` block would replace
the body's outcome; otherwise the body's outcome stands. -/
def main (w : World) : List Step × Except PyExc Unit :=
  let body := mainBody w
  match cleanup_files w.osRemove [OUTPUT_GEOJSON_FILE, OUTPUT_PMTILES_FILE] with
  | .error e => (body.1 ++ [.cleanup], .error e)
  | .ok _ => (body.1 ++ [.cleanup], body.2)

/-- `os.environ.get("SUPABASE_URL")` (line 14), over an environment given as
a partial map. -/
def SUPABASE_URL (env : String → Option String) : Option String :=
  env "SUPABASE_URL"

/-- `os.environ.get("SUPABASE_SECRET_KEY")` (line 15). -/
def SUPABASE_SECRET_KEY (env : String → Option String) : Option String :=
  env "SUPABASE_SECRET_KEY"

/-- Python truthiness of `os.environ.get`'s result: `None` and the empty
string are falsy. -/
def envTruthy : Option String → Bool
  | none => false
  | some s => s != ""

/-- The module-level check `all([SUPABASE_URL, SUPABASE_SECRET_KEY])`
(line 52). -/
def configCheck (env : String → Option String) : Bool :=
  envTruthy (SUPABASE_URL env) && envTruthy (SUPABASE_SECRET_KEY env)

/-- The stderr diagnostic printed at line 53. -/
def configErrorMessage : String :=
  "Error: SUPABASE_URL and SUPABASE_SECRET_KEY environment variables must be set."

/-- The observable outcome of running the script as a process. -/
structure ScriptResult : Type where
  exitCode : Nat
  stderrLines : List String
  steps : List Step
  deriving Repr, BEq, DecidableEq

/-- Running `python generate_tiles.py` (lines 52–60 at module level, then
`main()` under `if __name__ == "__main__"`): the config check exits with
status 1 before anything else runs; a `create_client` failure exits with
status 1; otherwise `main()` runs and an uncaught exception makes the
interpreter exit non-zero (status 1), a normal return exits 0. -/
def runScript (env : String → Option String) (clientInitOk : Bool)
    (w : World) : ScriptResult :=
  if !configCheck env then
    { exitCode := 1, stderrLines := [configErrorMessage], steps := [] }
  else if !clientInitOk then
    { exitCode := 1, stderrLines := ["Error initializing Supabase client."],
      steps := [] }
  else
    let r := main w
    { exitCode := match r.2 with | .ok _ => 0 | .error _ => 1,
      stderrLines := [], steps := r.1 }

/-! ### Concrete fixtures used by witnesses and counterexamples -/

/-- A `json.loads` oracle on which every string is malformed; it agrees with
Python's `json.loads` on the strings at which it is evaluated below (the
empty string and `"{bad json"`, both of which raise `JSONDecodeError`). -/
def noLoads : String → Option JValue := fun _ => none

/-- The spec's example geometry `{"type":"Point","coordinates":[1,2]}`. -/
def pointGeom : JValue :=
  .jobj [("type", .jstr "Point"), ("coordinates", .jarr [.jnum 1, .jnum 2])]

/-- The spec's example geometry, JSON-encoded. -/
def pointJson : String :=
  "\x7b\"type\":\"Point\",\"coordinates\":[1,2]\x7d"

/-- A `json.loads` oracle that parses the spec's example geometry string and
fails elsewhere, agreeing with Python's `json.loads` at every string it is
evaluated at below. -/
def loadsPoint : String → Option JValue := fun s =>
  if s = pointJson then some pointGeom else none

/-- The malformed location string of the spec's example. -/
def badJsonStr : String := "\x7bbad json"

/-- A row carrying the malformed location string. -/
def badRow : Row := [("location", JValue.jstr badJsonStr)]

/-- The spec's example row `{"url":"http://a","title":"A","location":null,
"marker":"x"}`. -/
def row9 : Row :=
  [("url", .jstr "http://a"), ("title", .jstr "A"), ("location", .jnull),
   ("marker", .jstr "x")]

/-- An environment with both required variables set non-empty. -/
def env0 : String → Option String := fun k =>
  if k = "SUPABASE_URL" then some "https://example.supabase.co"
  else if k = "SUPABASE_SECRET_KEY" then some "secret" else none

/-- An environment where `SUPABASE_URL` is set to the empty string and
everything else is set non-empty. -/
def envEmptyUrl : String → Option String := fun k =>
  if k = "SUPABASE_URL" then some "" else some "secret"

/-- An `os.remove` oracle where the GeoJSON file is already missing and the
PMTiles file is undeletable. -/
def removeOracle0 : String → Except PyExc Unit := fun f =>
  if f = OUTPUT_GEOJSON_FILE then .error .fileNotFound
  else if f = OUTPUT_PMTILES_FILE then .error (.other "Permission denied")
  else .ok ()

/-- A benign world: empty fetch, everything else succeeds. -/
def W0 : World where
  fetchResult := .ok []
  loads := noLoads
  saveResult := .ok ()
  tippecanoeExitCode := 0
  uploadResult := .ok ()
  osRemove := fun _ => .ok ()

/-- A world whose fetch yields one (fieldless) row and whose tippecanoe
invocation exits with status 2. -/
def W2 : World where
  fetchResult := .ok [([] : Row)]
  loads := noLoads
  saveResult := .ok ()
  tippecanoeExitCode := 2
  uploadResult := .ok ()
  osRemove := fun _ => .ok ()

/-! ## Helper lemmas -/

/-- Each iteration of the cleanup loop returns normally: both handlers
swallow the exception. -/
theorem cleanupIter_isOk (osRemove : String → Except PyExc Unit)
    (filename : String) : ∃ line, cleanupIter osRemove filename = .ok line := by
  unfold cleanupIter pyTry
  rcases h : osRemove filename with e | u
  · cases e <;> simp [h]
  · simp [h]

/-- `cleanup_files` returns normally, with one log line per filename. -/
theorem cleanup_files_isOk (osRemove : String → Except PyExc Unit)
    (filenames : List String) :
    ∃ logs, cleanup_files osRemove filenames = .ok logs ∧
      logs.length = filenames.length := by
  induction filenames with
  | nil => exact ⟨[], rfl, rfl⟩
  | cons f fs ih =>
    obtain ⟨line, hline⟩ := cleanupIter_isOk osRemove f
    obtain ⟨logs, hlogs, hlen⟩ := ih
    exact ⟨line :: logs, by simp [cleanup_files, hline, hlogs], by simp [hlen]⟩

/-- The `finally` block appends a cleanup step and, since `cleanup_files`
never raises, preserves the body's outcome. -/
theorem main_eq (w : World) :
    main w = ((mainBody w).1 ++ [Step.cleanup], (mainBody w).2) := by
  unfold main
  obtain ⟨logs, hlogs, -⟩ :=
    cleanup_files_isOk w.osRemove [OUTPUT_GEOJSON_FILE, OUTPUT_PMTILES_FILE]
  rw [hlogs]

/-- The `try` body never runs the cleanup step itself. -/
theorem cleanup_not_mem_mainBody (w : World) :
    Step.cleanup ∉ (mainBody w).1 := by
  unfold mainBody
  rcases w.fetchResult with e | rows
  · simp
  · dsimp only
    split
    · simp
    · rcases w.saveResult with e | u
      · simp
      · dsimp only
        split
        · simp
        · split <;> simp

/-- The i-th built feature is the one built from the i-th row. -/
theorem fetch_features_get (loads : String → Option JValue) (rows : List Row)
    (i : Nat) (hi : i < rows.length) :
    ∃ hi' : i < (fetch_data_as_geojson loads rows).features.length,
      (fetch_data_as_geojson loads rows).features.get ⟨i, hi'⟩ =
        buildFeature loads i (rows.get ⟨i, hi⟩) := by
  have hlen : (fetch_data_as_geojson loads rows).features.length =
      rows.length := by
    simp [fetch_data_as_geojson]
  refine ⟨by rw [hlen]; exact hi, ?_⟩
  show (rows.enum.map fun p => buildFeature loads p.1 p.2).get _ = _
  rw [List.get_eq_getElem, List.getElem_map, List.getElem_enum,
    List.get_eq_getElem]

/-! ## Claims -/

/-- C1: for every fetched sequence of N row mappings, the builder inside
`fetch_data_as_geojson` produces exactly N features, in input order, with
the i-th feature's `id` equal to its 0-based position i, so ids are unique
and dense in `[0, N)`. -/
theorem fetch_data_features_ids (loads : String → Option JValue)
    (rows : List Row) :
    (fetch_data_as_geojson loads rows).features.length = rows.length ∧
    (fetch_data_as_geojson loads rows).features.map Feature.id =
      List.range rows.length := by
  refine ⟨?_, ?_⟩
  · simp [fetch_data_as_geojson]
  · show (rows.enum.map fun p => buildFeature loads p.1 p.2).map Feature.id = _
    rw [List.map_map]
    have h : (Feature.id ∘ fun p : Nat × Row => buildFeature loads p.1 p.2) =
        Prod.fst := rfl
    rw [h, List.enum_map_fst]

/-- C2: on every exit path of `main` — normal completion, early exit on an
empty fetch, or an exception from the fetch, serialize, compile, or upload
step — the cleanup step executes, and it executes last. -/
theorem main_cleanup_always_last (w : World) :
    ∃ pre : List Step, (main w).1 = pre ++ [Step.cleanup] ∧
      Step.cleanup ∉ pre :=
  ⟨(mainBody w).1, by rw [main_eq], cleanup_not_mem_mainBody w⟩

/-- C8: `cleanup_files` never raises: it returns normally with one log line
per filename; a missing file takes the `FileNotFoundError` branch (skip
message), and any other deletion error takes the catch-all branch (warning
message), neither propagating. -/
theorem cleanup_files_never_raises (osRemove : String → Except PyExc Unit)
    (filenames : List String) :
    (∃ logs, cleanup_files osRemove filenames = .ok logs ∧
        logs.length = filenames.length) ∧
    (∀ f, osRemove f = .error PyExc.fileNotFound →
        cleanupIter osRemove f = .ok s!"{f} not found, skipping cleanup.") ∧
    (∀ f e, osRemove f = .error e → e ≠ PyExc.fileNotFound →
        cleanupIter osRemove f =
          .ok s!"Warning: Could not remove file {f}.") := by
  refine ⟨cleanup_files_isOk osRemove filenames, ?_, ?_⟩
  · intro f hf
    simp [cleanupIter, pyTry, hf]
  · intro f e hf hne
    simp only [cleanupIter, pyTry, hf]

/-- Witness for C8: with an `os.remove` oracle for which the GeoJSON file is
missing and the PMTiles file is undeletable, both loop iterations return
normally with the respective log lines. -/
theorem cleanup_files_never_raises_witness :
    cleanupIter removeOracle0 OUTPUT_GEOJSON_FILE =
      .ok s!"{OUTPUT_GEOJSON_FILE} not found, skipping cleanup." ∧
    cleanupIter removeOracle0 OUTPUT_PMTILES_FILE =
      .ok s!"Warning: Could not remove file {OUTPUT_PMTILES_FILE}." :=
  ⟨(cleanup_files_never_raises removeOracle0 []).2.1 OUTPUT_GEOJSON_FILE rfl,
   (cleanup_files_never_raises removeOracle0 []).2.2 OUTPUT_PMTILES_FILE
     (PyExc.other "Permission denied") rfl (by decide)⟩

/-- C5: if the fetched row sequence is empty, the builder produces an empty
feature list and `main` stops after the fetch — no save, no tippecanoe run,
no upload — running only cleanup afterwards, and the process exits with
status 0. -/
theorem empty_fetch_early_exit (env : String → Option String) (w : World)
    (hc : configCheck env = true) (hf : w.fetchResult = .ok []) :
    (fetch_data_as_geojson w.loads []).features = [] ∧
    main w = ([Step.fetch, Step.cleanup], .ok ()) ∧
    Step.save ∉ (main w).1 ∧ Step.generateTiles ∉ (main w).1 ∧
    Step.upload ∉ (main w).1 ∧
    (runScript env true w).exitCode = 0 := by
  have hbody : mainBody w = ([Step.fetch], .ok ()) := by
    unfold mainBody
    rw [hf]
    simp [fetch_data_as_geojson]
  have hm : main w = ([Step.fetch, Step.cleanup], .ok ()) := by
    rw [main_eq, hbody]
    rfl
  refine ⟨by simp [fetch_data_as_geojson], hm, ?_, ?_, ?_, ?_⟩
  · rw [hm]; simp
  · rw [hm]; simp
  · rw [hm]; simp
  · simp [runScript, hc, hm]

/-- Witness for C5: in a world whose fetch returns no rows, with both
environment variables set, the run exits 0 after fetch and cleanup only. -/
theorem empty_fetch_early_exit_witness :
    main W0 = ([Step.fetch, Step.cleanup], .ok ()) ∧
    (runScript env0 true W0).exitCode = 0 :=
  ⟨(empty_fetch_early_exit env0 W0 rfl rfl).2.1,
   (empty_fetch_early_exit env0 W0 rfl rfl).2.2.2.2.2⟩

/-- C6: if either required environment value is absent, the script exits
with status 1 and the stderr diagnostic, before any pipeline step runs (the
step trace is empty, so no local file was created). -/
theorem missing_config_fails_fast (env : String → Option String)
    (clientInitOk : Bool) (w : World)
    (h : SUPABASE_URL env = none ∨ SUPABASE_SECRET_KEY env = none) :
    runScript env clientInitOk w =
      { exitCode := 1, stderrLines := [configErrorMessage], steps := [] } := by
  have hc : configCheck env = false := by
    rcases h with h | h <;> simp [configCheck, envTruthy, h]
  simp [runScript, hc]

/-- Witness for C6: with no environment variables set at all, the script
exits 1 with the diagnostic and an empty step trace. -/
theorem missing_config_fails_fast_witness :
    runScript (fun _ => none) true W0 =
      { exitCode := 1, stderrLines := [configErrorMessage], steps := [] } :=
  missing_config_fails_fast (fun _ => none) true W0 (Or.inl rfl)

/-- C7: a non-zero tippecanoe exit makes the run fatal: `main`'s outcome is
the `CalledProcessError`, the upload step is never entered, cleanup still
runs last, and (under valid configuration) the process exits non-zero. -/
theorem tippecanoe_nonzero_fatal (w : World) (rows : List Row)
    (hf : w.fetchResult = .ok rows)
    (hne : (fetch_data_as_geojson w.loads rows).features.isEmpty = false)
    (hsave : w.saveResult = .ok ())
    (htip : w.tippecanoeExitCode ≠ 0) :
    (main w).2 = .error (.calledProcessError w.tippecanoeExitCode) ∧
    Step.upload ∉ (main w).1 ∧
    (main w).1 = [Step.fetch, Step.save, Step.generateTiles, Step.cleanup] ∧
    ∀ env, configCheck env = true → (runScript env true w).exitCode = 1 := by
  have hgen : generate_tiles w =
      .error (.calledProcessError w.tippecanoeExitCode) := by
    unfold generate_tiles
    rw [if_neg htip]
  have hbody : mainBody w = ([Step.fetch, Step.save, Step.generateTiles],
      .error (.calledProcessError w.tippecanoeExitCode)) := by
    unfold mainBody
    rw [hf]
    simp [hne, hsave, hgen]
  have hm := main_eq w
  rw [hbody] at hm
  refine ⟨by rw [hm], by rw [hm]; simp, by rw [hm]; rfl, ?_⟩
  intro env hc
  simp [runScript, hc, hm]

/-- Witness for C7: in a world fetching one row where tippecanoe exits with
status 2, `main` fails with the `CalledProcessError`, never uploads, and
the script exits 1. -/
theorem tippecanoe_nonzero_fatal_witness :
    (main W2).2 = .error (.calledProcessError 2) ∧
    Step.upload ∉ (main W2).1 ∧
    (runScript env0 true W2).exitCode = 1 := by
  obtain ⟨h1, h2, h3, h4⟩ :=
    tippecanoe_nonzero_fatal W2 [([] : Row)] rfl rfl rfl (by decide)
  exact ⟨h1, h2, h4 env0 rfl⟩

/-- C10: an environment value that is present but empty is treated exactly
like an absent one — the script exits 1 with the same stderr diagnostic,
and the whole observable result coincides with that of a fully unset
environment — because the startup check tests truthiness, not presence. -/
theorem empty_env_treated_as_missing (env : String → Option String)
    (clientInitOk : Bool) (w : World)
    (h : SUPABASE_URL env = some "" ∨ SUPABASE_SECRET_KEY env = some "") :
    runScript env clientInitOk w =
      { exitCode := 1, stderrLines := [configErrorMessage], steps := [] } ∧
    runScript env clientInitOk w = runScript (fun _ => none) clientInitOk w := by
  have hc : configCheck env = false := by
    rcases h with h | h <;> simp [configCheck, envTruthy, h]
  have hc' : configCheck (fun _ => none) = false := rfl
  constructor
  · simp [runScript, hc]
  · simp [runScript, hc, hc']

/-- Witness for C10: with `SUPABASE_URL` set to the empty string (and the
key set non-empty), the script exits 1 with the diagnostic. -/
theorem empty_env_treated_as_missing_witness :
    runScript envEmptyUrl true W0 =
      { exitCode := 1, stderrLines := [configErrorMessage], steps := [] } :=
  (empty_env_treated_as_missing envEmptyUrl true W0 (Or.inl rfl)).1

/-- C9: the builder copies `url`, `title`, `marker` into the feature's
properties verbatim, substituting null when a row lacks the field; in
particular for the row `{"url":"http://a","title":"A","location":null,
"marker":"x"}` the feature has null geometry and exactly those
properties. -/
theorem feature_properties_verbatim (loads : String → Option JValue)
    (i : Nat) (row : Row) :
    (buildFeature loads i row).properties =
      [("url", Row.get row "url"), ("title", Row.get row "title"),
       ("marker", Row.get row "marker")] ∧
    (∀ k, List.lookup k row = none → Row.get row k = JValue.jnull) ∧
    (buildFeature loads i row9).geometry = JValue.jnull ∧
    (buildFeature loads i row9).properties =
      [("url", JValue.jstr "http://a"), ("title", JValue.jstr "A"),
       ("marker", JValue.jstr "x")] := by
  refine ⟨rfl, ?_, rfl, rfl⟩
  intro k hk
  simp [Row.get, hk]

/-- Witness for C9: a row with no `marker` binding yields null for that
property. -/
theorem feature_properties_verbatim_witness :
    Row.get [("url", JValue.jstr "http://a")] "marker" = JValue.jnull :=
  (feature_properties_verbatim noLoads 0
    [("url", JValue.jstr "http://a")]).2.1 "marker" rfl

/-- Counterexample for C3: it is not true that a non-string `location` value
always becomes the geometry unchanged (nor that every string is parsed): the
row whose `location` is the empty object `{}` — falsy in Python — gets
geometry `None`, not `{}`, because the walrus `if` tests truthiness. -/
theorem location_passthrough_counterexample :
    ¬ ∀ (loads : String → Option JValue) (row : Row),
        (∀ s v, Row.get row "location" = JValue.jstr s → loads s = some v →
          rowGeom loads row = v) ∧
        ((∀ s, Row.get row "location" ≠ JValue.jstr s) →
          rowGeom loads row = Row.get row "location") := by
  intro h
  have h2 := (h noLoads [("location", JValue.jobj [])]).2
    (fun s hs => JValue.noConfusion hs)
  have h3 : JValue.jnull = JValue.jobj ([] : List (String × JValue)) := h2
  exact JValue.noConfusion h3

/-- C3 amended: geometry derivation is guarded by Python truthiness of the
`location` value.  A truthy (hence non-empty) string that parses becomes the
parsed value; a truthy non-string passes through unchanged; any falsy value
(null, false, 0, empty string, empty array, empty object) yields null
geometry. -/
theorem rowGeom_cases (loads : String → Option JValue) (row : Row) :
    (∀ s v, Row.get row "location" = JValue.jstr s → s ≠ "" →
        loads s = some v → rowGeom loads row = v) ∧
    ((∀ s, Row.get row "location" ≠ JValue.jstr s) →
        (Row.get row "location").truthy = true →
        rowGeom loads row = Row.get row "location") ∧
    ((Row.get row "location").truthy = false →
        rowGeom loads row = JValue.jnull) := by
  refine ⟨?_, ?_, ?_⟩
  · intro s v hs hne hl
    simp [rowGeom, hs, JValue.truthy, hne, hl]
  · intro hns htr
    rcases hval : Row.get row "location" with _ | b | n | s | xs | fs
    · rw [hval] at htr
      exact absurd htr (by simp [JValue.truthy])
    · rw [hval] at htr
      simp [rowGeom, hval, htr]
    · rw [hval] at htr
      simp [rowGeom, hval, htr]
    · exact absurd hval (hns s)
    · rw [hval] at htr
      simp [rowGeom, hval, htr]
    · rw [hval] at htr
      simp [rowGeom, hval, htr]
  · intro htr
    simp [rowGeom, htr]

/-- Witness for C3 amended: the spec's Point string parses to the Point
object; a truthy non-string array passes through; the null location of the
spec's example row yields null geometry. -/
theorem rowGeom_cases_witness :
    rowGeom loadsPoint [("location", JValue.jstr pointJson)] = pointGeom ∧
    rowGeom noLoads [("location", JValue.jarr [JValue.jnum 3])] =
      JValue.jarr [JValue.jnum 3] ∧
    rowGeom noLoads row9 = JValue.jnull :=
  ⟨(rowGeom_cases loadsPoint [("location", JValue.jstr pointJson)]).1
      pointJson pointGeom rfl (by decide) rfl,
   (rowGeom_cases noLoads [("location", JValue.jarr [JValue.jnum 3])]).2.1
      (fun s hs => JValue.noConfusion hs) rfl,
   (rowGeom_cases noLoads row9).2.2 rfl⟩

/-- Counterexample for C4: it is not true that every row whose `location` is
a string failing to parse gets the diagnostic: for the empty string — which
`json.loads` rejects — the truthiness guard skips the parse entirely, so no
warning is printed (geometry is still null). -/
theorem malformed_location_counterexample :
    ¬ ∀ (loads : String → Option JValue) (row : Row) (s : String),
        Row.get row "location" = JValue.jstr s → loads s = none →
        rowWarned loads row = true ∧ rowGeom loads row = JValue.jnull := by
  intro h
  have h2 := (h noLoads [("location", JValue.jstr "")] "" rfl rfl).1
  have h3 : false = true := h2
  exact Bool.noConfusion h3

/-- C4 amended: for a row whose `location` is a string rejected by the
parser, the warning is printed exactly when the string is non-empty (an
empty string is skipped silently by the truthiness guard); either way the
feature's geometry is null, and the feature is still included in the output
at its position — the builder never fails. -/
theorem malformed_location_amended (loads : String → Option JValue)
    (rows : List Row) (i : Nat) (s : String) (hi : i < rows.length)
    (hs : Row.get (rows.get ⟨i, hi⟩) "location" = JValue.jstr s)
    (hf : loads s = none) :
    rowWarned loads (rows.get ⟨i, hi⟩) = (s != "") ∧
    rowGeom loads (rows.get ⟨i, hi⟩) = JValue.jnull ∧
    (fetch_data_as_geojson loads rows).features.length = rows.length ∧
    ∃ hi' : i < (fetch_data_as_geojson loads rows).features.length,
      (fetch_data_as_geojson loads rows).features.get ⟨i, hi'⟩ =
        buildFeature loads i (rows.get ⟨i, hi⟩) := by
  have hs' : Row.get rows[i] "location" = JValue.jstr s := by
    simpa using hs
  refine ⟨?_, ?_, by simp [fetch_data_as_geojson], ?_⟩
  · simp [rowWarned, hs', hf, JValue.truthy]
  · by_cases hse : s = "" <;> simp [rowGeom, hs', hf, hse, JValue.truthy]
  · exact fetch_features_get loads rows i hi

/-- Witness for C4 amended: the malformed row `{"location": "{bad json"}`
produces the warning and a null geometry. -/
theorem malformed_location_amended_witness :
    rowWarned noLoads badRow = true ∧ rowGeom noLoads badRow = JValue.jnull := by
  obtain ⟨h1, h2, -, -⟩ :=
    malformed_location_amended noLoads [badRow] 0 badJsonStr (by decide) rfl rfl
  exact ⟨h1, h2⟩

end GenerateTiles
